import Mathlib

/-!
Verification of the interactive region-segmentation engine of the
2d-point-annotator repository (src/main.py and its near-duplicate
src/src/main.py).  The segmentation methods are shallowly embedded as
Lean functions.  The OpenCV vision primitives the code calls
(cv2.cvtColor, cv2.floodFill, cv2.adaptiveThreshold, morphology, ...)
are external to the repository, so they are modelled as an explicit
record of oracle functions (`Vision`); the two primitives the code's
own error handling treats as fallible (cv2.floodFill, guarded by an
`except cv2.error` in _segment_ff, and cv2.adaptiveThreshold, the
fallible primitive of _segment_adaptive_cc) return `Except CvErr`,
mirroring the fact that they may raise cv2.error.  Python integers are
modelled as `Int` (with Python floor division `//` as `Int.fdiv`);
2-D uint8 arrays are modelled as `List (List Nat)`.
-/

/-- A 2-D array of 8-bit values (grayscale image, mask, or label map):
row-major list of rows. -/
abbrev Grid := List (List Nat)

/-- Height of a grid, as numpy shape[0]. -/
def gridH (g : Grid) : Nat := g.length

/-- Width of a grid, as numpy shape[1] of a rectangular array: the
length of the first row. -/
def gridW (g : Grid) : Nat := (g.headD []).length

/-- Element access g[i][j], with 0 as the out-of-range default. -/
def gridGet (g : Grid) (i j : Nat) : Nat := (g.getD i []).getD j 0

/-- Pointwise (mask > 0).astype(np.uint8): strict 0/1 normalization. -/
def normalizeGrid (g : Grid) : Grid :=
  g.map (fun r => r.map (fun v => if 0 < v then 1 else 0))

/-- Pointwise (mask == 255).astype(np.uint8). -/
def eq255 (g : Grid) : Grid :=
  g.map (fun r => r.map (fun v => if v = 255 then 1 else 0))

/-- int(mask.sum()): the sum of all entries. -/
def maskSum (g : Grid) : Nat := (g.map (fun r => r.sum)).sum

/-- The number of nonzero cells of a grid (the foreground pixel count
the spec calls the mask's area). -/
def foregroundArea (g : Grid) : Nat := maskSum (normalizeGrid g)

/-- np.zeros((h, w), np.uint8). -/
def zerosGrid (h w : Nat) : Grid := List.replicate h (List.replicate w 0)

/-- The interior view m[1:-1, 1:-1] of a grid. -/
def interiorOf (g : Grid) : Grid :=
  ((g.drop 1).dropLast).map (fun r => (r.drop 1).dropLast)

/-- The grid is rectangular with the given height and width. -/
def GridShape (g : Grid) (h w : Nat) : Prop :=
  g.length = h ∧ ∀ r ∈ g, r.length = w

/-- Every entry of the grid is 0 or 1. -/
def Binary (g : Grid) : Prop := ∀ r ∈ g, ∀ v ∈ r, v ≤ 1

/-- Boolean rectangularity check, for closed-form statements about
fallible results. -/
def shapeB (g : Grid) (h w : Nat) : Bool :=
  (g.length == h) && g.all (fun r => r.length == w)

instance (g : Grid) : Decidable (Binary g) := by
  unfold Binary; infer_instance

instance (g : Grid) (h w : Nat) : Decidable (GridShape g h w) := by
  unfold GridShape; infer_instance

/-- The internal error raised by an OpenCV primitive (cv2.error). -/
inductive CvErr where
  | cvError : CvErr
deriving DecidableEq, Repr

/-- Holds of a fallible result exactly when it is a success. -/
def exceptIsOk (e : Except CvErr (Option Grid)) : Bool :=
  match e with
  | .ok _ => true
  | .error _ => false

/-- A structuring element, as produced by cv2.getStructuringElement
(only the elliptical ones appear in the code). -/
inductive Kern where
  | ellipse : Nat → Nat → Kern
deriving DecidableEq, Repr

/-- The morphologyEx operations the code uses. -/
inductive MorphOp where
  | opening : MorphOp
  | close : MorphOp
deriving DecidableEq, Repr

/-- The two segmentation methods of the method selector
(the UI strings "Flood Fill" and the adaptive alternative). -/
inductive Method where
  | ff : Method
  | cc : Method
deriving DecidableEq, Repr

/-- A decoded source raster (self.current_image after np.array):
either 3-channel RGB or single-channel, with `grid` holding the
per-pixel values (for RGB a per-pixel code; only its shape matters
to the embedded control flow). -/
structure SrcImage where
  channels : Nat
  grid : Grid
deriving DecidableEq, Repr

/-- Height of the source image. -/
def imgH (img : SrcImage) : Nat := gridH img.grid

/-- Width of the source image. -/
def imgW (img : SrcImage) : Nat := gridW img.grid

/-- numpy shape[-1] of np.array(self.current_image): the channel count
for a 3-channel image, but the WIDTH for a single-channel image, since
then the array is 2-D. -/
def lastDim (img : SrcImage) : Nat :=
  if img.channels = 3 then 3 else imgW img

/-- The mutable application state read by the segmentation methods:
the current image and the tk variables self.method,
self.fill_sensitivity, self.edge_lock, self.edge_lock_width,
self.use_clahe. -/
structure AppState where
  currentImage : SrcImage
  method : Method
  sens : Int
  edgeLock : Bool
  edgeWidth : Int
  useClahe : Bool
deriving DecidableEq, Repr

/-- The OpenCV primitives the segmentation code calls, as oracles.
cv2.floodFill and cv2.adaptiveThreshold are Except-valued: they are
the primitives that can raise cv2.error on degenerate input (floodFill
is wrapped in an except handler in the source; adaptiveThreshold is
not).  floodFill is called in FLOODFILL_MASK_ONLY mode and is modelled
by the mask it writes; its arguments are (image, mask, x, y, newVal,
loDiff, upDiff, flags).  adaptiveThreshold's arguments are
(gray, maxValue, blockSize, C) with the ADAPTIVE_THRESH_MEAN_C and
THRESH_BINARY_INV configuration fixed as in the source.
connectedComponents is cv2.connectedComponentsWithStats with
connectivity 8, modelled by its label map. -/
structure Vision where
  cvtColorRGB2GRAY : SrcImage → Except CvErr Grid
  claheApply : Grid → Grid
  gaussianBlur : Grid → Grid
  canny : Grid → Nat → Nat → Grid
  dilate : Grid → Kern → Nat → Grid
  erode : Grid → Kern → Nat → Grid
  morphologyEx : MorphOp → Grid → Kern → Nat → Grid
  floodFill : Grid → Grid → Int → Int → Nat → Int → Int → Nat → Except CvErr Grid
  adaptiveThreshold : Grid → Nat → Int → Int → Except CvErr Grid
  connectedComponents : Grid → Grid

/-- Embeds _preprocess_gray of src/main.py: routes through the RGB to
gray conversion when np.array(image).shape[-1] == 3, optionally applies
CLAHE (clipLimit 2.0, tiles 8x8), then a fixed 5x5 Gaussian blur. -/
def preprocessGray (V : Vision) (st : AppState) : Except CvErr Grid :=
  match (if lastDim st.currentImage = 3
         then V.cvtColorRGB2GRAY st.currentImage
         else Except.ok st.currentImage.grid) with
  | .error e => .error e
  | .ok gray0 =>
      .ok (V.gaussianBlur (if st.useClahe then V.claheApply gray0 else gray0))

/-- The clamp k = max(1, min(5, edge_lock_width)) of _segment_ff. -/
def edgeK (w : Int) : Int := max 1 (min 5 w)

/-- The tolerance tol = max(1, min(80, 2*sens + 2)) of _segment_ff. -/
def ffTol (sens : Int) : Int := max 1 (min 80 (2 * sens + 2))

/-- The block size max(11, 2*(5 + sens//2) + 1) of _segment_adaptive_cc
(Python floor division). -/
def ccBlock (sens : Int) : Int := max 11 (2 * (5 + Int.fdiv sens 2) + 1)

/-- The constant C = max(2, min(15, 12 - sens//5)) of
_segment_adaptive_cc (Python floor division). -/
def ccC (sens : Int) : Int := max 2 (min 15 (12 - Int.fdiv sens 5))

/-- The flood-fill flags cv2.FLOODFILL_MASK_ONLY | 4 | (255 << 8). -/
def ffFlags : Nat := 131072 ||| (4 ||| (255 <<< 8))

/-- The edge barrier of _segment_ff: when edge_lock is on, Canny edges
(thresholds 40/120) dilated by an ellipse of radius k and normalized
to 0/1; otherwise the all-zero grid. -/
def ffBarrier (V : Vision) (st : AppState) (gray : Grid) : Grid :=
  if st.edgeLock then
    normalizeGrid
      (V.dilate (V.canny gray 40 120)
        (Kern.ellipse (2 * (edgeK st.edgeWidth).toNat + 1)
          (2 * (edgeK st.edgeWidth).toNat + 1)) 1)
  else zerosGrid (gridH gray) (gridW gray)

/-- The (h+2) x (w+2) working mask of _segment_ff: border cells set to
1, and when edge_lock is on the interior cells covered by the barrier
set to 1 as well. -/
def buildFFMask (h w : Nat) (el : Bool) (barrier : Grid) : Grid :=
  (List.range (h + 2)).map (fun i =>
    (List.range (w + 2)).map (fun j =>
      if i = 0 ∨ i = h + 1 ∨ j = 0 ∨ j = w + 1 then 1
      else if el ∧ gridGet barrier (i - 1) (j - 1) = 1 then 1 else 0))

/-- The working mask of _segment_ff for the given preprocessed field. -/
def ffStartMask (V : Vision) (st : AppState) (gray : Grid) : Grid :=
  buildFFMask (gridH gray) (gridW gray) st.edgeLock (ffBarrier V st gray)

/-- Number of binary digits of a natural number (the least k with
n < 2^k; 0 for 0), computed by bounded search so that it reduces in
the kernel.  The 400-step bound covers every mantissa this model can
produce for any realizable mask (products of 53-bit significands stay
below 2^106). -/
def bitLen (m : Nat) : Nat :=
  (((List.range 400).find? (fun k => decide (m < 2 ^ k)))).getD 400

/-- Rounding of an exact dyadic value m * 2^e to a 53-bit significand
with IEEE-754 round-to-nearest, ties to even: the rounding every
binary64 multiplication result undergoes.  Values already below 2^53
are exact; a carry to 2^53 is kept unnormalized, which leaves the
represented value exact.  Overflow to infinity (beyond 2^1024) is not
modelled; it is unreachable for any realizable mask dimensions. -/
def fl53 (p : Nat × Int) : Nat × Int :=
  if bitLen p.1 ≤ 53 then p
  else
    let shift := bitLen p.1 - 53
    let q := p.1 / 2 ^ shift
    let r := p.1 % 2 ^ shift
    let half := 2 ^ (shift - 1)
    if half < r ∨ (r = half ∧ q % 2 = 1) then (q + 1, p.2 + (shift : Int))
    else (q, p.2 + (shift : Int))

/-- The binary64 value of the literal 0.7: the double nearest to 7/10
is 6305039478318694 * 2^(-53), since 7 * 2^53 / 10 = 6305039478318694.4
rounds down. -/
def fl07 : Nat × Int := (6305039478318694, -53)

/-- Conversion of a Python int to binary64 (exact below 2^53,
rounded to nearest-even above). -/
def flOfNat (n : Nat) : Nat × Int := fl53 (n, 0)

/-- Binary64 multiplication: exact product of the significands, then
the 53-bit rounding. -/
def flMul (p q : Nat × Int) : Nat × Int := fl53 (p.1 * q.1, p.2 + q.2)

/-- The double computed by the source expression 0.7 * w * h, with
Python's left-to-right evaluation: (0.7 * w) * h. -/
def thr07 (w h : Nat) : Nat × Int := flMul (flMul fl07 (flOfNat w)) (flOfNat h)

/-- The exact comparison of a Python int against a dyadic double value
m * 2^e, as Python performs for int > float. -/
def natGtDyadic (a : Nat) (p : Nat × Int) : Bool :=
  if 0 ≤ p.2 then decide (p.1 * 2 ^ p.2.toNat < a)
  else decide (p.1 < a * 2 ^ (-p.2).toNat)

/-- The source comparison area > 0.7 * w * h, carried out in IEEE-754
double precision exactly as Python evaluates it. -/
def areaTooBig (area w h : Nat) : Bool := natGtDyadic area (thr07 w h)

/-- Embeds _sanity_and_clean of src/main.py: rejects a mask whose area
is below 30 or above the float product 0.7 * w * h (the comparison is
modelled exactly, in IEEE-754 double arithmetic, via areaTooBig), then
applies one 5x5-ellipse closing pass and normalizes to strict 0/1. -/
def sanityAndClean (V : Vision) (mask : Grid) : Option Grid :=
  if maskSum mask < 30 then none
  else if areaTooBig (maskSum mask) (gridW mask) (gridH mask) then none
  else some (normalizeGrid (V.morphologyEx MorphOp.close mask (Kern.ellipse 5 5) 1))

/-- The body of _segment_ff after the preprocessed field is available:
bounds check, barrier and working-mask construction, the flood fill
with the symmetric tolerance window (loDiff = upDiff = tol), the
except cv2.error handler converting a primitive failure to None, and
the sanity filter on the 255-cells of the mask interior. -/
def segmentFFCore (V : Vision) (st : AppState) (x y : Int) (gray : Grid) :
    Option Grid :=
  if 0 ≤ x ∧ x < (gridW gray : Int) ∧ 0 ≤ y ∧ y < (gridH gray : Int) then
    match V.floodFill gray (ffStartMask V st gray) x y 0
        (ffTol st.sens) (ffTol st.sens) ffFlags with
    | .error _ => none
    | .ok m1 => sanityAndClean V (eq255 (interiorOf m1))
  else none

/-- Embeds _segment_ff of src/main.py.  The preprocessing step runs
unguarded, so a cv2.error raised there propagates; the flood fill
itself is guarded. -/
def segmentFF (V : Vision) (st : AppState) (x y : Int) :
    Except CvErr (Option Grid) :=
  match preprocessGray V st with
  | .error e => .error e
  | .ok gray => .ok (segmentFFCore V st x y gray)

/-- The component selection of _segment_adaptive_cc: (labels == lbl)
as a 0/1 grid. -/
def labelRegion (labels : Grid) (lbl : Nat) : Grid :=
  labels.map (fun r => r.map (fun v => if v = lbl then 1 else 0))

/-- The radius-3 neighborhood fallback of _segment_adaptive_cc: the
nonzero labels of labels[max(0,y-3):min(h,y+4), max(0,x-3):min(w,x+4)]
(np.unique sorts, so u[0] after dropping 0 is their minimum). -/
def nonzeroPatchLabels (labels : Grid) (h w xn yn : Nat) : List Nat :=
  let x0 := xn - 3
  let x1 := min w (xn + 4)
  let y0 := yn - 3
  let y1 := min h (yn + 4)
  ((((labels.drop y0).take (y1 - y0)).map
      (fun r => (r.drop x0).take (x1 - x0))).flatten).filter (fun v => v != 0)

/-- The body of _segment_adaptive_cc after the preprocessed field is
available: bounds check, adaptive mean threshold (maxValue 255,
inverse binary) with the sensitivity-derived block size and C, a
3x3-ellipse opening, 8-connectivity component labeling, seed-label
lookup with the radius-3 fallback, and the sanity filter.  The
threshold primitive runs unguarded: its cv2.error propagates. -/
def segmentCCCore (V : Vision) (st : AppState) (x y : Int) (gray : Grid) :
    Except CvErr (Option Grid) :=
  if 0 ≤ x ∧ x < (gridW gray : Int) ∧ 0 ≤ y ∧ y < (gridH gray : Int) then
    match V.adaptiveThreshold gray 255 (ccBlock st.sens) (ccC st.sens) with
    | .error e => .error e
    | .ok thr =>
        let thr2 := V.morphologyEx MorphOp.opening thr (Kern.ellipse 3 3) 1
        let labels := V.connectedComponents (normalizeGrid thr2)
        let lbl := gridGet labels y.toNat x.toNat
        if lbl = 0 then
          match nonzeroPatchLabels labels (gridH gray) (gridW gray)
              x.toNat y.toNat with
          | [] => .ok none
          | a :: rest =>
              .ok (sanityAndClean V (labelRegion labels (rest.foldl Nat.min a)))
        else .ok (sanityAndClean V (labelRegion labels lbl))
  else .ok none

/-- Embeds _segment_adaptive_cc of src/main.py. -/
def segmentCC (V : Vision) (st : AppState) (x y : Int) :
    Except CvErr (Option Grid) :=
  match preprocessGray V st with
  | .error e => .error e
  | .ok gray => segmentCCCore V st x y gray

/-- Embeds _grow_shrink of src/main.py: steps == 0 just normalizes;
otherwise one dilation (steps > 0) or erosion (steps < 0) by an
ellipse of radius min(25, max(1, abs(steps))), then normalization. -/
def growShrink (V : Vision) (mask : Grid) (steps : Int) : Grid :=
  if steps = 0 then normalizeGrid mask
  else
    let k := min 25 (max 1 steps.natAbs)
    let kern := Kern.ellipse (2 * k + 1) (2 * k + 1)
    if 0 < steps then normalizeGrid (V.dilate mask kern 1)
    else normalizeGrid (V.erode mask kern 1)

/-- The method dispatch of _segment_with_fallback: _segment_ff when
the method is "Flood Fill", else _segment_adaptive_cc. -/
def segMethod (V : Vision) (st : AppState) (m : Method) (x y : Int) :
    Except CvErr (Option Grid) :=
  match m with
  | .ff => segmentFF V st x y
  | .cc => segmentCC V st x y

/-- The opposite method, as in strategy 3 of _segment_with_fallback. -/
def oppositeMethod : Method → Method
  | .ff => .cc
  | .cc => .ff

/-- The offsets list of _segment_with_fallback (the loop skips the
leading (0,0) entry). -/
def jitterList : List (Int × Int) :=
  [(0, 0), (1, 0), (-1, 0), (0, 1), (0, -1), (2, 2), (-2, -2)]

/-- Strategy 2 of _segment_with_fallback: retry the current method at
each offset in order, stopping at the first non-None mask; an escaping
exception aborts the loop. -/
def tryJitters (V : Vision) (st : AppState) (x y : Int) :
    List (Int × Int) → Except CvErr (Option Grid)
  | [] => .ok none
  | (dx, dy) :: rest =>
      match segMethod V st st.method (x + dx) (y + dy) with
      | .error e => .error e
      | .ok (some m) => .ok (some m)
      | .ok none => tryJitters V st x y rest

/-- Embeds _segment_with_fallback of src/main.py, with the mutation of
self.fill_sensitivity made explicit: the pair holds the returned value
and the state after the call (also on an escaping exception, since a
Python exception leaves prior attribute assignments in place).
Strategy 4 sets the relaxed sensitivity, runs the original method, and
restores the original sensitivity after the attempt returns; there is
no try/finally, so the .error branch keeps the relaxed state. -/
def segmentWithFallback (V : Vision) (st : AppState) (x y : Int) :
    Except CvErr (Option Grid) × AppState :=
  match segMethod V st st.method x y with
  | .error e => (.error e, st)
  | .ok (some m) => (.ok (some m), st)
  | .ok none =>
      match tryJitters V st x y (jitterList.drop 1) with
      | .error e => (.error e, st)
      | .ok (some m) => (.ok (some m), st)
      | .ok none =>
          match segMethod V st (oppositeMethod st.method) x y with
          | .error e => (.error e, st)
          | .ok (some m) => (.ok (some m), st)
          | .ok none =>
              let originalSens := st.sens
              let relaxedSens := min 50 (originalSens + 10)
              let st1 : AppState := { st with sens := relaxedSens }
              match segMethod V st1 st1.method x y with
              | .error e => (.error e, st1)
              | .ok r => (.ok r, { st1 with sens := originalSens })

/-- One planned segmenter invocation of the fallback policy: a method,
a seed, and the sensitivity in effect for the attempt. -/
structure Attempt where
  meth : Method
  ax : Int
  ay : Int
  asens : Int
deriving DecidableEq, Repr

/-- Runs one planned attempt against the given base state. -/
def runAttempt (V : Vision) (st : AppState) (a : Attempt) :
    Except CvErr (Option Grid) :=
  segMethod V { st with sens := a.asens } a.meth a.ax a.ay

/-- First-success scan over a list of planned attempts: stops at the
first non-None mask, propagates an escaping exception, and returns
None when the list is exhausted. -/
def runPlan (V : Vision) (st : AppState) : List Attempt → Except CvErr (Option Grid)
  | [] => .ok none
  | a :: rest =>
      match runAttempt V st a with
      | .error e => .error e
      | .ok (some m) => .ok (some m)
      | .ok none => runPlan V st rest

/-- The nine attempts of _segment_with_fallback, in order: the selected
method at the seed, the six jitter offsets, the opposite method at the
seed, and the selected method at the seed with the relaxed
sensitivity. -/
def fallbackPlan (st : AppState) (x y : Int) : List Attempt :=
  [⟨st.method, x, y, st.sens⟩,
   ⟨st.method, x + 1, y + 0, st.sens⟩,
   ⟨st.method, x + -1, y + 0, st.sens⟩,
   ⟨st.method, x + 0, y + 1, st.sens⟩,
   ⟨st.method, x + 0, y + -1, st.sens⟩,
   ⟨st.method, x + 2, y + 2, st.sens⟩,
   ⟨st.method, x + -2, y + -2, st.sens⟩,
   ⟨oppositeMethod st.method, x, y, st.sens⟩,
   ⟨st.method, x, y, min 50 (st.sens + 10)⟩]

/-- Clamping of the sensitivity to its documented range, following the
spec's words (the claimed invariant); the source never performs this
operation. -/
def specClampSens (s : Int) : Int := max 1 (min 50 s)

/-- Pointwise all-zero grid of the same shape as the input. -/
def zerosLike (g : Grid) : Grid := g.map (fun r => r.map (fun _ => 0))

/-- A shape-preserving banded grid: rows 1 through 4 filled with the
given value, every other row zero, with the row lengths of the input
preserved.  Used as the output of concrete oracle instantiations. -/
def bandGrid (m : Grid) (val : Nat) : Grid :=
  (List.range (gridH m)).map (fun i =>
    (List.range ((m.getD i []).length)).map (fun _ =>
      if 1 ≤ i ∧ i ≤ 4 then val else 0))

/-- A concrete well-behaved primitive pack: the color conversion
follows the OpenCV contract (cv2.cvtColor with COLOR_RGB2GRAY raises
cv2.error unless the input has 3 channels), all shape-preserving
primitives preserve shapes, the flood fill marks a band of rows, and
the component labeling labels a band of rows. -/
def Vgood : Vision where
  cvtColorRGB2GRAY := fun img =>
    if img.channels = 3 then .ok img.grid else .error .cvError
  claheApply := fun g => g
  gaussianBlur := fun g => g
  canny := fun g _ _ => g
  dilate := fun g _ _ => g
  erode := fun g _ _ => g
  morphologyEx := fun _ g _ _ => g
  floodFill := fun _ m _ _ _ _ _ _ => .ok (bandGrid m 255)
  adaptiveThreshold := fun g _ _ _ => .ok g
  connectedComponents := fun g => bandGrid g 1

/-- A primitive pack whose flood fill always raises and whose adaptive
threshold raises exactly when called with block size 31 (the block
size derived from sensitivity 20), returning an all-background
threshold otherwise. -/
def Vbad2 : Vision where
  cvtColorRGB2GRAY := fun img =>
    if img.channels = 3 then .ok img.grid else .error .cvError
  claheApply := fun g => g
  gaussianBlur := fun g => g
  canny := fun g _ _ => g
  dilate := fun g _ _ => g
  erode := fun g _ _ => g
  morphologyEx := fun _ g _ _ => g
  floodFill := fun _ _ _ _ _ _ _ _ => .error .cvError
  adaptiveThreshold := fun g _ b _ =>
    if b = 31 then .error .cvError else .ok (zerosLike g)
  connectedComponents := fun g => g

/-- A primitive pack whose flood fill and adaptive threshold both
always raise cv2.error. -/
def VatErr : Vision where
  cvtColorRGB2GRAY := fun img =>
    if img.channels = 3 then .ok img.grid else .error .cvError
  claheApply := fun g => g
  gaussianBlur := fun g => g
  canny := fun g _ _ => g
  dilate := fun g _ _ => g
  erode := fun g _ _ => g
  morphologyEx := fun _ g _ _ => g
  floodFill := fun _ _ _ _ _ _ _ _ => .error .cvError
  adaptiveThreshold := fun _ _ _ _ => .error .cvError
  connectedComponents := fun g => g

/-- A primitive pack under which only the relaxed-sensitivity retry of
the fallback policy can succeed: the flood fill succeeds exactly when
its tolerance bound is 58 (the tolerance derived from sensitivity 28)
and the adaptive threshold always returns an all-background result. -/
def Vs4 : Vision where
  cvtColorRGB2GRAY := fun img =>
    if img.channels = 3 then .ok img.grid else .error .cvError
  claheApply := fun g => g
  gaussianBlur := fun g => g
  canny := fun g _ _ => g
  dilate := fun g _ _ => g
  erode := fun g _ _ => g
  morphologyEx := fun _ g _ _ => g
  floodFill := fun _ m _ _ _ lo _ _ =>
    if lo = 58 then .ok (bandGrid m 255) else .error .cvError
  adaptiveThreshold := fun g _ _ _ => .ok (zerosLike g)
  connectedComponents := fun g => g

/-- A flood-fill oracle that agrees with the one of Vgood whenever its
lower and upper tolerance bounds coincide, and raises otherwise. -/
def ffObs : Grid → Grid → Int → Int → Nat → Int → Int → Nat → Except CvErr Grid :=
  fun img m sx sy nv lo up fl =>
    if lo = up then Vgood.floodFill img m sx sy nv lo up fl else .error .cvError

/-- A 10x10 single-channel source field of constant intensity 100. -/
def g10 : Grid := List.replicate 10 (List.replicate 10 100)

/-- Default-settings state over the 10x10 field: method Flood Fill,
sensitivity 18, edge lock off, CLAHE off. -/
def stGood : AppState where
  currentImage := { channels := 1, grid := g10 }
  method := .ff
  sens := 18
  edgeLock := false
  edgeWidth := 2
  useClahe := false

/-- State over a one-pixel single-channel image with the adaptive
method selected and sensitivity 10. -/
def st1px : AppState where
  currentImage := { channels := 1, grid := [[7]] }
  method := .cc
  sens := 10
  edgeLock := false
  edgeWidth := 2
  useClahe := false

/-- State over a single-channel image of height 1 and width 3: a valid
grayscale buffer whose numpy shape[-1] happens to be 3. -/
def stGray3 : AppState where
  currentImage := { channels := 1, grid := [[5, 5, 5]] }
  method := .ff
  sens := 18
  edgeLock := false
  edgeWidth := 2
  useClahe := false

/-- The 10x10 mask with rows 0 through 3 set to 1: the value of
segment_ff under Vgood at the 10x10 field. -/
def mffW : Grid :=
  (List.range 10).map (fun i =>
    (List.range 10).map (fun _ => if i < 4 then 1 else 0))

/-- The 10x10 mask with rows 1 through 4 set to 1: the value of
segment_adaptive_cc under Vgood at the 10x10 field. -/
def mccW : Grid :=
  (List.range 10).map (fun i =>
    (List.range 10).map (fun _ => if 1 ≤ i ∧ i ≤ 4 then 1 else 0))

/-- A 30-row, 3-column binary mask with exactly 63 foreground pixels:
its area equals the exact real threshold 0.7 * 3 * 30 = 63, but the
double (0.7 * 3) * 30 evaluates to 8866461766385662 * 2^(-47), which
is strictly below 63. -/
def m63 : Grid := List.replicate 21 [1, 1, 1] ++ List.replicate 9 [0, 0, 0]

/-- Shape-preservation contracts for the primitive pack, as documented
for the corresponding OpenCV operations: each primitive that produces
an array produces one of the same shape as its array input (for the
flood fill, the shape of its mask argument). -/
structure VisionOK (V : Vision) : Prop where
  morphPres : ∀ op g k n h w, GridShape g h w →
    GridShape (V.morphologyEx op g k n) h w
  floodPres : ∀ img m sx sy nv lo up fl out a b, GridShape m a b →
    V.floodFill img m sx sy nv lo up fl = .ok out → GridShape out a b
  atPres : ∀ g mv b c out h w, GridShape g h w →
    V.adaptiveThreshold g mv b c = .ok out → GridShape out h w
  ccPres : ∀ g h w, GridShape g h w → GridShape (V.connectedComponents g) h w
  dilatePres : ∀ g k n h w, GridShape g h w → GridShape (V.dilate g k n) h w
  erodePres : ∀ g k n h w, GridShape g h w → GridShape (V.erode g k n) h w

/-! Helper lemmas about grids, the sanity filter, and the fallback
plan, followed by the claim theorems. -/

/-- Normalization to strict 0/1 is idempotent. -/
theorem normalizeGrid_idem (g : Grid) :
    normalizeGrid (normalizeGrid g) = normalizeGrid g := by
  unfold normalizeGrid
  rw [List.map_map]
  apply List.map_congr_left
  intro r hr
  simp only [Function.comp_apply, List.map_map]
  apply List.map_congr_left
  intro v hv
  by_cases h0 : 0 < v <;> simp [h0]

/-- A normalized grid is a strict 0/1 grid. -/
theorem binary_normalizeGrid (g : Grid) : Binary (normalizeGrid g) := by
  intro r hr v hv
  unfold normalizeGrid at hr
  obtain ⟨r0, hr0, rfl⟩ := List.mem_map.1 hr
  obtain ⟨v0, hv0, rfl⟩ := List.mem_map.1 hv
  by_cases h0 : 0 < v0 <;> simp [h0]

/-- On a row of 0/1 entries, normalization preserves the sum. -/
theorem rowSum_normalize (r : List Nat) (hb : ∀ v ∈ r, v ≤ 1) :
    (r.map (fun v => if 0 < v then 1 else 0)).sum = r.sum := by
  induction r with
  | nil => rfl
  | cons a t ih =>
      have ha : a ≤ 1 := hb a (List.mem_cons_self a t)
      have ht : ∀ v ∈ t, v ≤ 1 := fun v hv => hb v (List.mem_cons_of_mem a hv)
      simp only [List.map_cons, List.sum_cons, ih ht]
      by_cases h0 : 0 < a
      · have : a = 1 := by omega
        simp [this]
      · have : a = 0 := by omega
        simp [this]

/-- On a strict 0/1 mask, the entry sum computed by the sanity filter
equals the foreground pixel count. -/
theorem maskSum_normalizeGrid_of_binary (g : Grid) (hb : Binary g) :
    maskSum (normalizeGrid g) = maskSum g := by
  unfold maskSum normalizeGrid
  rw [List.map_map]
  congr 1
  apply List.map_congr_left
  intro r hr
  exact rowSum_normalize r (hb r hr)

/-- A cellwise map preserves the shape of a grid. -/
theorem gridShape_map (f : Nat → Nat) (g : Grid) (h w : Nat)
    (hs : GridShape g h w) :
    GridShape (g.map (fun r => r.map f)) h w := by
  obtain ⟨hl, hr⟩ := hs
  refine ⟨by simp [hl], ?_⟩
  intro r hrm
  obtain ⟨r0, hr0, rfl⟩ := List.mem_map.1 hrm
  simp [hr r0 hr0]

/-- The flood-fill working mask has shape (h+2) x (w+2). -/
theorem gridShape_buildFFMask (h w : Nat) (el : Bool) (b : Grid) :
    GridShape (buildFFMask h w el b) (h + 2) (w + 2) := by
  refine ⟨by simp [buildFFMask], ?_⟩
  intro r hrm
  unfold buildFFMask at hrm
  obtain ⟨i, hi, rfl⟩ := List.mem_map.1 hrm
  simp

/-- Taking the interior of an (h+2) x (w+2) grid yields an h x w grid. -/
theorem gridShape_interiorOf (g : Grid) (h w : Nat)
    (hs : GridShape g (h + 2) (w + 2)) :
    GridShape (interiorOf g) h w := by
  obtain ⟨hl, hr⟩ := hs
  refine ⟨?_, ?_⟩
  · simp [interiorOf, List.length_dropLast, List.length_drop, hl]
  · intro r hrm
    unfold interiorOf at hrm
    obtain ⟨r0, hr0, rfl⟩ := List.mem_map.1 hrm
    have hm : r0 ∈ g := List.drop_subset 1 g (List.dropLast_subset _ hr0)
    have : r0.length = w + 2 := hr r0 hm
    simp [List.length_dropLast, List.length_drop, this]

/-- A nonempty rectangular grid has the width of its shape. -/
theorem gridShape_w_of_pos (g : Grid) (h w : Nat) (hs : GridShape g h w)
    (hp : 0 < h) : gridW g = w := by
  obtain ⟨hl, hr⟩ := hs
  cases g with
  | nil => simp at hl; omega
  | cons r t => exact hr r (List.mem_cons_self r t)

/-- The banded grid preserves the shape of its input. -/
theorem gridShape_bandGrid (m : Grid) (v : Nat) (a b : Nat)
    (hs : GridShape m a b) : GridShape (bandGrid m v) a b := by
  obtain ⟨hl, hr⟩ := hs
  refine ⟨by simp [bandGrid, gridH, hl], ?_⟩
  intro r hrm
  unfold bandGrid at hrm
  obtain ⟨i, hi, rfl⟩ := List.mem_map.1 hrm
  simp only [List.length_map, List.length_range]
  have hi2 : i < m.length := by
    simpa [gridH] using List.mem_range.1 hi
  rw [List.getD_eq_getElem m [] hi2]
  exact hr _ (List.getElem_mem hi2)

/-- An accepted mask of the sanity filter is the normalized result of
its single closing pass. -/
theorem sanityAndClean_some (V : Vision) (m0 : Grid) (r : Grid)
    (hs : sanityAndClean V m0 = some r) :
    r = normalizeGrid (V.morphologyEx MorphOp.close m0 (Kern.ellipse 5 5) 1) := by
  unfold sanityAndClean at hs
  split_ifs at hs
  exact (Option.some.inj hs).symm

/-- The concrete primitive pack Vgood satisfies the documented
shape-preservation contracts. -/
theorem visionOK_Vgood : VisionOK Vgood := by
  constructor
  · intro op g k n h w hs
    exact hs
  · intro img m sx sy nv lo up fl out a b hs heq
    have : out = bandGrid m 255 := by
      simpa [Vgood] using heq.symm
    rw [this]
    exact gridShape_bandGrid m 255 a b hs
  · intro g mv b c out h w hs heq
    have : out = g := by
      simpa [Vgood] using heq.symm
    rw [this]
    exact hs
  · intro g h w hs
    exact gridShape_bandGrid g 1 h w hs
  · intro g k n h w hs
    exact hs
  · intro g k n h w hs
    exact hs

/-- Changing only the oracles a stage does not call leaves the
preprocessed field unchanged. -/
theorem preprocessGray_congr (V W : Vision) (st : AppState)
    (h1 : W.cvtColorRGB2GRAY = V.cvtColorRGB2GRAY)
    (h2 : W.claheApply = V.claheApply)
    (h3 : W.gaussianBlur = V.gaussianBlur) :
    preprocessGray W st = preprocessGray V st := by
  unfold preprocessGray
  rw [h1, h2, h3]

/-- The flood-fill working mask depends only on the Canny and dilation
oracles. -/
theorem ffStartMask_congr (V W : Vision) (st : AppState) (gray : Grid)
    (h4 : W.canny = V.canny) (h5 : W.dilate = V.dilate) :
    ffStartMask W st gray = ffStartMask V st gray := by
  unfold ffStartMask ffBarrier
  rw [h4, h5]

/-- The sanity filter depends only on the morphology oracle. -/
theorem sanityAndClean_congr (V W : Vision)
    (h7 : W.morphologyEx = V.morphologyEx) :
    sanityAndClean W = sanityAndClean V := by
  funext m
  unfold sanityAndClean
  rw [h7]

/-- Unfolding of the first-success scan on a nonempty plan. -/
theorem runPlan_cons (V : Vision) (st : AppState) (a : Attempt)
    (l : List Attempt) :
    runPlan V st (a :: l) =
      (match runAttempt V st a with
       | .error e => .error e
       | .ok (some m) => .ok (some m)
       | .ok none => runPlan V st l) := rfl

/-- The first-success scan of a concatenation runs the second part
exactly when the first is exhausted without a success. -/
theorem runPlan_append (V : Vision) (st : AppState) (l1 l2 : List Attempt) :
    runPlan V st (l1 ++ l2) =
      (match runPlan V st l1 with
       | .error e => .error e
       | .ok (some m) => .ok (some m)
       | .ok none => runPlan V st l2) := by
  induction l1 with
  | nil => rfl
  | cons a t ih =>
      simp only [List.cons_append, runPlan]
      cases h : runAttempt V st a with
      | error e => rfl
      | ok o =>
          cases o with
          | some m => rfl
          | none => exact ih

/-- The jitter loop is the first-success scan over the current-method
attempts at the offset seeds. -/
theorem tryJitters_eq_runPlan (V : Vision) (st : AppState) (x y : Int)
    (offs : List (Int × Int)) :
    tryJitters V st x y offs =
      runPlan V st (offs.map (fun p => ⟨st.method, x + p.1, y + p.2, st.sens⟩)) := by
  induction offs with
  | nil => rfl
  | cons p rest ih =>
      obtain ⟨dx, dy⟩ := p
      simp only [tryJitters, List.map_cons, runPlan, runAttempt]
      rw [show ({ st with sens := st.sens } : AppState) = st from rfl]
      cases h : segMethod V st st.method (x + dx) (y + dy) with
      | error e => rfl
      | ok o =>
          cases o with
          | some m => rfl
          | none => exact ih

/-- C1: _segment_with_fallback attempts segmentation in the exact
order of fallbackPlan — the selected method at the seed, then the
same method at the six jitter offsets (1,0),(-1,0),(0,1),(0,-1),
(2,2),(-2,-2) in that order, then the opposite method at the seed,
then the selected method at the seed with sensitivity min(50, s+10) —
returning the first non-None mask; the plan has exactly 9 entries and
the scan short-circuits, so at most 9 segmenter invocations occur. -/
theorem c1_fallback_order (V : Vision) (st : AppState) (x y : Int) :
    (segmentWithFallback V st x y).1 = runPlan V st (fallbackPlan st x y) ∧
    (fallbackPlan st x y).length = 9 := by
  refine ⟨?_, rfl⟩
  have hplan : fallbackPlan st x y =
      (⟨st.method, x, y, st.sens⟩ : Attempt) ::
        (((jitterList.drop 1).map
            (fun p => (⟨st.method, x + p.1, y + p.2, st.sens⟩ : Attempt))) ++
          [⟨oppositeMethod st.method, x, y, st.sens⟩,
           ⟨st.method, x, y, min 50 (st.sens + 10)⟩]) := rfl
  rw [hplan, runPlan_cons, runPlan_append, ← tryJitters_eq_runPlan]
  have ha1 : runAttempt V st ⟨st.method, x, y, st.sens⟩ =
      segMethod V st st.method x y := rfl
  have ha8 : runAttempt V st ⟨oppositeMethod st.method, x, y, st.sens⟩ =
      segMethod V st (oppositeMethod st.method) x y := rfl
  have ha9 : runAttempt V st ⟨st.method, x, y, min 50 (st.sens + 10)⟩ =
      segMethod V { st with sens := min 50 (st.sens + 10) } st.method x y := rfl
  rw [ha1]
  unfold segmentWithFallback
  cases h1 : segMethod V st st.method x y with
  | error e => rfl
  | ok o1 =>
      cases o1 with
      | some m => rfl
      | none =>
          dsimp only
          cases h2 : tryJitters V st x y (jitterList.drop 1) with
          | error e => rfl
          | ok o2 =>
              cases o2 with
              | some m => rfl
              | none =>
                  dsimp only
                  rw [runPlan_cons, ha8]
                  cases h3 : segMethod V st (oppositeMethod st.method) x y with
                  | error e => rfl
                  | ok o3 =>
                      cases o3 with
                      | some m => rfl
                      | none =>
                          dsimp only
                          rw [runPlan_cons, ha9]
                          cases h4 : segMethod V
                              { st with sens := min 50 (st.sens + 10) }
                              st.method x y with
                          | error e => rfl
                          | ok r =>
                              cases r with
                              | some m => rfl
                              | none => rfl

/-- C2 (amended): whenever _segment_with_fallback completes without an
escaping exception — returning a mask or None — the stored sensitivity
after the call equals its value on entry.  (As stated the claim also
covers escaping exceptions; the counterexample below shows the relaxed
value persists in that case, since there is no try/finally.) -/
theorem c2_restore_on_ok (V : Vision) (st : AppState) (x y : Int)
    (hok : exceptIsOk (segmentWithFallback V st x y).1 = true) :
    (segmentWithFallback V st x y).2.sens = st.sens := by
  unfold segmentWithFallback at hok ⊢
  cases h1 : segMethod V st st.method x y with
  | error e =>
      simp only [h1, exceptIsOk] at hok
      exact absurd hok (by decide)
  | ok o1 =>
      cases o1 with
      | some m => simp only [h1]
      | none =>
          simp only [h1] at hok ⊢
          cases h2 : tryJitters V st x y (jitterList.drop 1) with
          | error e =>
              simp only [h2, exceptIsOk] at hok
              exact absurd hok (by decide)
          | ok o2 =>
              cases o2 with
              | some m => simp only [h2]
              | none =>
                  simp only [h2] at hok ⊢
                  cases h3 : segMethod V st (oppositeMethod st.method) x y with
                  | error e =>
                      simp only [h3, exceptIsOk] at hok
                      exact absurd hok (by decide)
                  | ok o3 =>
                      cases o3 with
                      | some m => simp only [h3]
                      | none =>
                          simp only [h3] at hok ⊢
                          cases h4 : segMethod V
                              { st with sens := min 50 (st.sens + 10) }
                              st.method x y with
                          | error e =>
                              simp only [h4, exceptIsOk] at hok
                              exact absurd hok (by decide)
                          | ok r => simp only [h4]

/-- C2 (counterexample): a call entered with sensitivity 10 in which
strategies 1 through 3 fail and the relaxed-sensitivity retry raises
inside the segmenter leaves the stored sensitivity at the relaxed
value 20 — the claim's restoration on exception does not hold. -/
theorem c2_counterexample :
    st1px.sens = 10 ∧
    (segmentWithFallback Vbad2 st1px 0 0).1 = Except.error CvErr.cvError ∧
    (segmentWithFallback Vbad2 st1px 0 0).2.sens = 20 :=
  ⟨rfl, rfl, rfl⟩

/-- C2 (witness): a call that succeeds only at the relaxed-sensitivity
strategy completes with the sensitivity restored to its entry value. -/
theorem c2_restore_on_ok_witness :
    exceptIsOk (segmentWithFallback Vs4 stGood 2 2).1 = true ∧
    (segmentWithFallback Vs4 stGood 2 2).2.sens = stGood.sens :=
  ⟨rfl, c2_restore_on_ok Vs4 stGood 2 2 rfl⟩

/-- C3 (amended): when both fallible primitives always raise, the
flood-fill segmenter converts the failure to None at its boundary (the
except cv2.error handler), while the adaptive segmenter, which has no
handler, propagates the adaptive-threshold failure as an exception. -/
theorem c3_primitive_failure (V : Vision) (st : AppState) (x y : Int)
    (er : CvErr) (gray : Grid)
    (hff : ∀ a b c d e f g h, V.floodFill a b c d e f g h = .error er)
    (hat : ∀ a b c d, V.adaptiveThreshold a b c d = .error er)
    (hpre : preprocessGray V st = .ok gray)
    (hb : 0 ≤ x ∧ x < (gridW gray : Int) ∧ 0 ≤ y ∧ y < (gridH gray : Int)) :
    segmentFF V st x y = .ok none ∧ segmentCC V st x y = .error er := by
  constructor
  · simp only [segmentFF, hpre, segmentFFCore, if_pos hb, hff]
  · simp only [segmentCC, hpre, segmentCCCore, if_pos hb, hat]

/-- C3 (counterexample): at an in-bounds seed of a valid field, an
internal error of the adaptive-threshold primitive escapes
_segment_adaptive_cc as an exception instead of becoming None. -/
theorem c3_counterexample :
    preprocessGray VatErr st1px = Except.ok [[7]] ∧
    segmentCC VatErr st1px 0 0 = Except.error CvErr.cvError :=
  ⟨rfl, rfl⟩

/-- C3 (witness): the amended behavior at a concrete in-bounds seed. -/
theorem c3_primitive_failure_witness :
    segmentFF VatErr st1px 0 0 = Except.ok none ∧
    segmentCC VatErr st1px 0 0 = Except.error CvErr.cvError :=
  c3_primitive_failure VatErr st1px 0 0 CvErr.cvError [[7]]
    (fun _ _ _ _ _ _ _ _ => rfl) (fun _ _ _ _ => rfl) rfl (by decide)

/-- C4 (counterexample): the sensitivity is not clamped to [1, 50]
before deriving the internal parameters: at sensitivity 0 the code's
tolerance is 2 whereas clamping first would give 4, and at sensitivity
200 the code's block size is 211 whereas clamping first would give
61. -/
theorem c4_counterexample :
    ffTol 0 = 2 ∧ ffTol (specClampSens 0) = 4 ∧
    ffTol 0 ≠ ffTol (specClampSens 0) ∧
    ccBlock 200 = 211 ∧ ccBlock (specClampSens 200) = 61 ∧
    ccBlock 200 ≠ ccBlock (specClampSens 200) :=
  ⟨by decide, by decide, by decide, by decide, by decide, by decide⟩

/-- C4 (amended): the edge-barrier radius is the clamp of
edge_lock_width to [1, 5]; the sensitivity itself is never clamped —
instead each derived parameter is clamped to its own range (tolerance
to [1, 80], C to [2, 15], block size to at least 11), and for a
sensitivity already within [1, 50] the derived parameters coincide
with deriving from the clamped sensitivity. -/
theorem c4_clamping (s w0 : Int) (h1 : 1 ≤ s) (h2 : s ≤ 50) :
    (1 ≤ edgeK w0 ∧ edgeK w0 ≤ 5) ∧
    ffTol s = ffTol (specClampSens s) ∧
    ccBlock s = ccBlock (specClampSens s) ∧
    ccC s = ccC (specClampSens s) ∧
    (1 ≤ ffTol s ∧ ffTol s ≤ 80) ∧
    (2 ≤ ccC s ∧ ccC s ≤ 15) ∧
    11 ≤ ccBlock s := by
  have hcl : specClampSens s = s := by unfold specClampSens; omega
  rw [hcl]
  refine ⟨⟨?_, ?_⟩, rfl, rfl, rfl, ⟨?_, ?_⟩, ⟨?_, ?_⟩, ?_⟩
  · unfold edgeK; omega
  · unfold edgeK; omega
  · unfold ffTol; omega
  · unfold ffTol; omega
  · unfold ccC; generalize Int.fdiv s 5 = t; omega
  · unfold ccC; generalize Int.fdiv s 5 = t; omega
  · unfold ccBlock; generalize Int.fdiv s 2 = t; omega

/-- C4 (witness): the amended clamping facts at the default settings
(sensitivity 18, edge width 2). -/
theorem c4_clamping_witness :
    ((1 : Int) ≤ 18 ∧ (18 : Int) ≤ 50) ∧
    ((1 ≤ edgeK 2 ∧ edgeK 2 ≤ 5) ∧
     ffTol 18 = ffTol (specClampSens 18) ∧
     ccBlock 18 = ccBlock (specClampSens 18) ∧
     ccC 18 = ccC (specClampSens 18) ∧
     (1 ≤ ffTol 18 ∧ ffTol 18 ≤ 80) ∧
     (2 ≤ ccC 18 ∧ ccC 18 ≤ 15) ∧
     11 ≤ ccBlock 18) :=
  ⟨⟨by decide, by decide⟩, c4_clamping 18 2 (by decide) (by decide)⟩

/-- C5: a seed outside [0, width) x [0, height) of the preprocessed
field makes both segmenters return None without an exception. -/
theorem c5_oob (V : Vision) (st : AppState) (x y : Int) (gray : Grid)
    (hpre : preprocessGray V st = .ok gray)
    (hoob : ¬ (0 ≤ x ∧ x < (gridW gray : Int) ∧ 0 ≤ y ∧ y < (gridH gray : Int))) :
    segmentFF V st x y = .ok none ∧ segmentCC V st x y = .ok none := by
  constructor
  · simp only [segmentFF, hpre, segmentFFCore, if_neg hoob]
  · simp only [segmentCC, hpre, segmentCCCore, if_neg hoob]

/-- C5 (witness): an out-of-bounds seed on the 10x10 field. -/
theorem c5_oob_witness :
    segmentFF Vgood stGood 100 0 = Except.ok none ∧
    segmentCC Vgood stGood 100 0 = Except.ok none :=
  c5_oob Vgood stGood 100 0 g10 rfl (by decide)

/-- C6 (counterexample): the 30x3 binary mask with area 63 has its
area equal to the exact 0.7 * w * h = 63, so the claimed rule accepts
it (the area is neither below 30 nor above 0.7 of the image area), yet
the program's double-precision product (0.7 * 3) * 30 rounds below 63
and the filter returns None. -/
theorem c6_counterexample :
    Binary m63 ∧
    gridH m63 = 30 ∧ gridW m63 = 3 ∧ maskSum m63 = 63 ∧
    ¬ (maskSum m63 < 30) ∧
    ¬ (10 * maskSum m63 > 7 * (gridW m63 * gridH m63)) ∧
    sanityAndClean Vgood m63 = none :=
  ⟨by decide, by decide, by decide, by decide, by decide, by decide, by decide⟩

/-- C6 (amended): on a 0/1 mask, the sanity filter returns None
exactly when the foreground area is below 30 or above the IEEE-754
double-precision value of 0.7 * w * h (which can differ from the exact
real threshold at boundary inputs, as in the counterexample), and
every accepted mask is the strict 0/1 normalization of exactly one
5x5-ellipse closing pass (one iteration) over the input. -/
theorem c6_sanity_filter (V : Vision) (m : Grid) (hb : Binary m) :
    sanityAndClean V m =
      (if foregroundArea m < 30 ∨
          areaTooBig (foregroundArea m) (gridW m) (gridH m) = true
       then none
       else some (normalizeGrid
         (V.morphologyEx MorphOp.close m (Kern.ellipse 5 5) 1))) := by
  have hfa : foregroundArea m = maskSum m := by
    unfold foregroundArea
    exact maskSum_normalizeGrid_of_binary m hb
  rw [hfa]
  unfold sanityAndClean
  by_cases h1 : maskSum m < 30
  · rw [if_pos h1, if_pos (Or.inl h1)]
  · rw [if_neg h1]
    by_cases h2 : areaTooBig (maskSum m) (gridW m) (gridH m) = true
    · rw [if_pos h2, if_pos (Or.inr h2)]
    · rw [if_neg h2, if_neg (by tauto)]

/-- C6 (witness): the filter characterization at a concrete 10x10 mask
of area 40, below the double threshold (0.7 * 10) * 10 = 70. -/
theorem c6_sanity_filter_witness :
    Binary mffW ∧
    sanityAndClean Vgood mffW =
      (if foregroundArea mffW < 30 ∨
          areaTooBig (foregroundArea mffW) (gridW mffW) (gridH mffW) = true
       then none
       else some (normalizeGrid
         (Vgood.morphologyEx MorphOp.close mffW (Kern.ellipse 5 5) 1))) :=
  ⟨by decide, c6_sanity_filter Vgood mffW (by decide)⟩

/-- C7: the flood-fill tolerance is exactly max(1, min(80, 2*s + 2)),
and _segment_ff consults the flood-fill primitive only at calls whose
lower and upper intensity bounds both equal this single tolerance: two
primitive packs that agree on such symmetric calls (and on the other
oracles) make _segment_ff agree everywhere. -/
theorem c7_symmetric_tolerance (V W : Vision) (st : AppState) (x y s : Int)
    (h1 : W.cvtColorRGB2GRAY = V.cvtColorRGB2GRAY)
    (h2 : W.claheApply = V.claheApply)
    (h3 : W.gaussianBlur = V.gaussianBlur)
    (h4 : W.canny = V.canny)
    (h5 : W.dilate = V.dilate)
    (h7 : W.morphologyEx = V.morphologyEx)
    (hagree : ∀ img m sx sy nv fl,
      W.floodFill img m sx sy nv (ffTol st.sens) (ffTol st.sens) fl =
        V.floodFill img m sx sy nv (ffTol st.sens) (ffTol st.sens) fl) :
    segmentFF W st x y = segmentFF V st x y ∧
    ffTol s = max 1 (min 80 (2 * s + 2)) := by
  refine ⟨?_, rfl⟩
  unfold segmentFF
  rw [preprocessGray_congr V W st h1 h2 h3]
  cases hp : preprocessGray V st with
  | error e => rfl
  | ok gray =>
      dsimp only
      congr 1
      unfold segmentFFCore
      by_cases hbnd : 0 ≤ x ∧ x < (gridW gray : Int) ∧ 0 ≤ y ∧ y < (gridH gray : Int)
      · rw [if_pos hbnd, if_pos hbnd, ffStartMask_congr V W st gray h4 h5,
            hagree gray (ffStartMask V st gray) x y 0 ffFlags,
            sanityAndClean_congr V W h7]
      · rw [if_neg hbnd, if_neg hbnd]

/-- C7 (witness): a pack whose flood fill differs from Vgood's
whenever the two bounds differ, but agrees on symmetric calls, leaves
_segment_ff unchanged at a concrete seed. -/
theorem c7_symmetric_tolerance_witness :
    segmentFF { Vgood with floodFill := ffObs } stGood 2 2 =
      segmentFF Vgood stGood 2 2 ∧
    ffTol 7 = max 1 (min 80 (2 * 7 + 2)) :=
  c7_symmetric_tolerance Vgood { Vgood with floodFill := ffObs } stGood 2 2 7
    rfl rfl rfl rfl rfl rfl
    (fun img m sx sy nv fl => by simp [ffObs])

/-- C8: _grow_shrink with zero steps performs no dilation or erosion
for any primitive pack; it returns exactly the strict 0/1
normalization of the mask, and on an already-normalized mask it is the
identity. -/
theorem c8_grow_shrink_zero (V : Vision) (m : Grid) :
    growShrink V m 0 = normalizeGrid m ∧
    growShrink V (normalizeGrid m) 0 = normalizeGrid m := by
  constructor
  · simp [growShrink]
  · simp [growShrink, normalizeGrid_idem]

/-- C9: evaluation at the failing input: a valid single-channel image
of height 1 and width 3 (numpy shape (1, 3), so shape[-1] = 3) is
misrouted into the RGB-to-gray conversion, whose 3-channel
precondition fails, and the cv2.error escapes _preprocess_gray instead
of the claimed no-failure pass-through. -/
theorem c9_preprocess_gray3 :
    preprocessGray Vgood stGray3 = Except.error CvErr.cvError ∧
    stGray3.currentImage.channels = 1 ∧
    imgH stGray3.currentImage = 1 ∧ imgW stGray3.currentImage = 3 :=
  ⟨rfl, rfl, rfl, rfl⟩

/-- C10: under the documented shape contracts of the primitives, every
mask produced by a successful segmentation-path call — segment_ff,
segment_adaptive_cc, the sanity filter, and grow_shrink — is a strict
0/1 grid whose height and width equal those of the grid it was derived
from (the preprocessed field for the segmenters, the input mask for
the post-processing steps). -/
theorem c10_mask_invariants (V : Vision) (st : AppState) (x y : Int)
    (gray mff mcc m0 ms mg : Grid) (gh gw mh mw gh2 gw2 : Nat) (steps : Int)
    (hV : VisionOK V)
    (hpre : preprocessGray V st = .ok gray)
    (hgray : GridShape gray gh gw)
    (hff : segmentFF V st x y = .ok (some mff))
    (hcc : segmentCC V st x y = .ok (some mcc))
    (hm0 : GridShape m0 mh mw)
    (hsan : sanityAndClean V m0 = some ms)
    (hmg : GridShape mg gh2 gw2) :
    (Binary mff ∧ GridShape mff gh gw) ∧
    (Binary mcc ∧ GridShape mcc gh gw) ∧
    (Binary ms ∧ GridShape ms mh mw) ∧
    (Binary (growShrink V mg steps) ∧ GridShape (growShrink V mg steps) gh2 gw2) := by
  have hgh : gridH gray = gh := hgray.1
  refine ⟨?_, ?_, ?_, ?_⟩
  · simp only [segmentFF, hpre, Except.ok.injEq] at hff
    unfold segmentFFCore at hff
    split at hff
    case isTrue hbnd =>
      obtain ⟨hx0, hx1, hy0, hy1⟩ := hbnd
      have hpos : 0 < gridH gray := by omega
      have hgw2 : gridW gray = gw := by
        apply gridShape_w_of_pos gray gh gw hgray
        omega
      cases hfl : V.floodFill gray (ffStartMask V st gray) x y 0
          (ffTol st.sens) (ffTol st.sens) ffFlags with
      | error e => rw [hfl] at hff; exact absurd hff (by simp)
      | ok m1 =>
          rw [hfl] at hff
          have hmask : GridShape (ffStartMask V st gray)
              (gridH gray + 2) (gridW gray + 2) :=
            gridShape_buildFFMask (gridH gray) (gridW gray) st.edgeLock
              (ffBarrier V st gray)
          have hm1 : GridShape m1 (gridH gray + 2) (gridW gray + 2) :=
            hV.floodPres _ _ _ _ _ _ _ _ _ _ _ hmask hfl
          have hreg : GridShape (eq255 (interiorOf m1)) (gridH gray) (gridW gray) :=
            gridShape_map _ _ _ _ (gridShape_interiorOf m1 _ _ hm1)
          have hmff := sanityAndClean_some V _ mff hff
          subst hmff
          refine ⟨binary_normalizeGrid _, ?_⟩
          rw [← hgh, ← hgw2]
          exact gridShape_map _ _ _ _
            (hV.morphPres MorphOp.close _ (Kern.ellipse 5 5) 1 _ _ hreg)
    case isFalse h => exact absurd hff (by simp)
  · simp only [segmentCC, hpre] at hcc
    unfold segmentCCCore at hcc
    split at hcc
    case isTrue hbnd =>
      cases hat : V.adaptiveThreshold gray 255 (ccBlock st.sens) (ccC st.sens) with
      | error e => rw [hat] at hcc; exact absurd hcc (by simp)
      | ok thr =>
          rw [hat] at hcc
          dsimp only at hcc
          have hlabels : GridShape
              (V.connectedComponents
                (normalizeGrid
                  (V.morphologyEx MorphOp.opening thr (Kern.ellipse 3 3) 1)))
              gh gw :=
            hV.ccPres _ _ _
              (gridShape_map _ _ _ _
                (hV.morphPres _ _ _ _ _ _ (hV.atPres _ _ _ _ _ _ _ hgray hat)))
          split at hcc
          · split at hcc
            · exact absurd hcc (by simp)
            · simp only [Except.ok.injEq] at hcc
              have hmcc := sanityAndClean_some V _ mcc hcc
              subst hmcc
              refine ⟨binary_normalizeGrid _, ?_⟩
              exact gridShape_map _ _ _ _
                (hV.morphPres MorphOp.close _ (Kern.ellipse 5 5) 1 _ _
                  (gridShape_map _ _ _ _ hlabels))
          · simp only [Except.ok.injEq] at hcc
            have hmcc := sanityAndClean_some V _ mcc hcc
            subst hmcc
            refine ⟨binary_normalizeGrid _, ?_⟩
            exact gridShape_map _ _ _ _
              (hV.morphPres MorphOp.close _ (Kern.ellipse 5 5) 1 _ _
                (gridShape_map _ _ _ _ hlabels))
    case isFalse h => exact absurd hcc (by simp)
  · have hms := sanityAndClean_some V m0 ms hsan
    subst hms
    refine ⟨binary_normalizeGrid _, ?_⟩
    exact gridShape_map _ _ _ _
      (hV.morphPres MorphOp.close _ (Kern.ellipse 5 5) 1 _ _ hm0)
  · unfold growShrink
    split
    · exact ⟨binary_normalizeGrid _, gridShape_map _ _ _ _ hmg⟩
    · dsimp only
      split
      · exact ⟨binary_normalizeGrid _,
          gridShape_map _ _ _ _ (hV.dilatePres _ _ _ _ _ hmg)⟩
      · exact ⟨binary_normalizeGrid _,
          gridShape_map _ _ _ _ (hV.erodePres _ _ _ _ _ hmg)⟩

/-- C10 (witness): the four invariants at a concrete run over the
10x10 field where both segmenters succeed, the sanity filter accepts,
and a one-step grow is applied. -/
theorem c10_mask_invariants_witness :
    (Binary mffW ∧ GridShape mffW 10 10) ∧
    (Binary mccW ∧ GridShape mccW 10 10) ∧
    (Binary mffW ∧ GridShape mffW 10 10) ∧
    (Binary (growShrink Vgood mffW 1) ∧ GridShape (growShrink Vgood mffW 1) 10 10) :=
  c10_mask_invariants Vgood stGood 2 2 g10 mffW mccW mffW mffW mffW
    10 10 10 10 10 10 1
    visionOK_Vgood rfl (by decide) rfl rfl (by decide) rfl (by decide)
